import Mathlib

/-!
Verification of the backup reconciliation engine of `backup_starred_repos.py`
(gh-archive repository).

This file gives a shallow embedding of the program's data model and operations:

* external effects (GitHub API lookups, `git` clone, `zip` packaging, R2
  object-storage calls, filesystem cleanup) are modelled by oracle functions
  saying whether each call succeeds, and every storage/filesystem call the
  orchestrator issues is recorded in an explicit operation trace (`Op`);
* Python dictionaries are modelled by insertion-ordered association lists with
  overwrite-on-existing-key semantics (`dictInsert`, `bucketAppend`), matching
  the `dict` behaviour the manifest code relies on;
* `hashlib.md5(...).hexdigest()` is an abstract function parameter `md5hex`
  (the code only uses that it is a function of the url string);
* `datetime.now()` values are passed in as explicit string parameters
  (`today` for `%Y%m%d`, `now` for `isoformat`, `backup_ts` for
  `%Y%m%d_%H%M%S`), since within a run the code only uses their values.
-/

/-- One object stored in the R2 bucket, as seen through `list_objects_v2`
(`Key`, `LastModified`, `Size`).  `lastModified` is an abstract clock value. -/
structure R2Object where
  key : String
  lastModified : Nat
  size : Nat
deriving DecidableEq, Repr

/-- The bucket contents (the listing the code iterates over). -/
abbrev Bucket := List R2Object

/-- Storage / process calls issued by the orchestrator, in order. -/
inductive Op where
  | listObjects
  | cloneCall (url : String)
  | zipCall (repoId : String)
  | deleteObject (key : String)
  | uploadObject (key : String)
  | rmTree (path : String)
  | unlink (path : String)
deriving DecidableEq, Repr

/-- Success/failure oracles for the external collaborators, plus the metadata
storage assigns to a freshly uploaded object. -/
structure Oracles where
  cloneOk : String → Bool
  zipOk : String → Bool
  uploadOk : String → Bool
  deleteOk : String → Bool
  rmTreeOk : String → Bool
  unlinkOk : String → Bool
  manifestSaveOk : Bool
  manifestUploadOk : Bool
  newLastModified : Nat
  newSize : Nat

/-- One starred-repository descriptor: the fields of the GitHub API payload
that `backup_starred_repos.py` reads, plus the three enrichment fields
(`contributors`, `languages`, `topics`) filled in by `enhance_repo_metadata`.
`language = none` models JSON `null` (the key is always present in the API
payload, so the `.get` defaults for it never fire). -/
structure RepoDescriptor where
  name : String
  full_name : String
  clone_url : String
  description : String
  homepage : String
  language : Option String
  languages : List (String × Nat)
  topics : List String
  stargazers_count : Nat
  forks_count : Nat
  watchers_count : Nat
  size : Nat
  created_at : String
  updated_at : String
  pushed_at : String
  ssh_url : String
  html_url : String
  license_name : Option String
  fork : Bool
  archived : Bool
  is_private : Bool
  default_branch : String
  owner_login : String
  owner_type : String
  owner_html_url : String
  contributors : List String
deriving DecidableEq, Repr

/-- Python `s.replace('/', '_')`: the pattern is a single character, so the
replacement is the character-wise map. -/
def replaceSlashes (s : String) : String :=
  String.mk (s.data.map fun ch => if ch = '/' then '_' else ch)

/-- Python `s.split('/')[-1]`: the suffix after the last `/` (the whole
string when there is no `/`, the empty string after a trailing `/`). -/
def lastPathComponent (s : String) : String :=
  String.mk (s.data.foldl (fun acc ch => if ch = '/' then [] else acc ++ [ch]) [])

/-- Python `s.startswith(p)`, on the character lists. -/
def strStartsWith (s p : String) : Bool :=
  p.data.isPrefixOf s.data

/-- Python `s.endswith(p)`, on the character lists. -/
def strEndsWith (s p : String) : Bool :=
  p.data.isSuffixOf s.data

/-- Python `s[:n]`, on the character list. -/
def strTake (s : String) (n : Nat) : String :=
  String.mk (s.data.take n)

/-- `generate_repo_id`: `f"{timestamp}_{hash_hex}_{slug}"` where `timestamp`
is today's `%Y%m%d` date, `hash_hex = md5(repo_url).hexdigest()[:8]` and
`slug = repo_full_name.replace('/', '_')`. -/
def generate_repo_id (md5hex : String → String) (today : String)
    (repo_full_name repo_url : String) : String :=
  let hash_hex := strTake (md5hex repo_url) 8
  let slug := replaceSlashes repo_full_name
  today ++ "_" ++ hash_hex ++ "_" ++ slug

/-- `generate_backup_id`: `f"backup_{timestamp}"` with a `%Y%m%d_%H%M%S`
timestamp. -/
def generate_backup_id (backup_ts : String) : String :=
  "backup_" ++ backup_ts

/-- One candidate record built by `check_existing_backup`
(`filename` / `last_modified` / `size`). -/
structure BackupCandidate where
  filename : String
  last_modified : Nat
  size : Nat
deriving DecidableEq, Repr

/-- Ordering used to model `existing_backups.sort(key=lambda x:
x['last_modified'], reverse=True)`: `a` comes before `b` when `a` is at least
as recent. -/
def candLE (a b : BackupCandidate) : Prop :=
  b.last_modified ≤ a.last_modified

instance : DecidableRel candLE := fun x y => Nat.decLe y.last_modified x.last_modified

instance : IsTotal BackupCandidate candLE :=
  ⟨fun a b => (Nat.le_total a.last_modified b.last_modified).symm⟩

instance : IsTrans BackupCandidate candLE :=
  ⟨fun _ _ _ hab hbc => Nat.le_trans hbc hab⟩

/-- Result of `check_existing_backup`: either `{'exists': False}` or the
dictionary holding `count`, `latest` and `all`. -/
inductive ExistingCheck where
  | notFound
  | found (count : Nat) (latest : BackupCandidate) (all : List BackupCandidate)
deriving DecidableEq, Repr

/-- The `['exists']` field. -/
def ExistingCheck.existsB : ExistingCheck → Bool
  | .notFound => false
  | .found _ _ _ => true

/-- The `['all']` field (only ever read when `exists` is true). -/
def ExistingCheck.allList : ExistingCheck → List BackupCandidate
  | .notFound => []
  | .found _ _ all => all

/-- The key predicate of `check_existing_backup`:
`filename.endswith(f"_{slug_with_owner}.zip") or
 filename.endswith(f"_{repo_name_only}.zip")` with
`slug_with_owner = repo_full_name.replace('/', '_')` and
`repo_name_only = repo_full_name.split('/')[-1]`. -/
def matchesBackupName (repo_full_name : String) (filename : String) : Bool :=
  let slug_with_owner := replaceSlashes repo_full_name
  let repo_name_only := lastPathComponent repo_full_name
  strEndsWith filename ("_" ++ slug_with_owner ++ ".zip")
    || strEndsWith filename ("_" ++ repo_name_only ++ ".zip")

/-- `check_existing_backup`: lists the whole bucket, keeps the objects whose
key matches either naming scheme, sorts them by `last_modified` descending and
reports the newest first.  (The `try/except` that maps a storage-listing error
to `{'exists': False}` is outside this model: the bucket listing is given.) -/
def check_existing_backup (bucket : Bucket) (repo_full_name : String) :
    ExistingCheck :=
  let existing_backups :=
    (bucket.filter fun obj => matchesBackupName repo_full_name obj.key).map
      fun obj => BackupCandidate.mk obj.key obj.lastModified obj.size
  match List.insertionSort candLE existing_backups with
  | [] => .notFound
  | latest :: rest => .found (latest :: rest).length latest (latest :: rest)

/-- A manifest `backup_status` value. -/
inductive BackupStatus where
  | success
  | failed_clone
  | failed_zip
  | failed_upload
  | dry_run
deriving DecidableEq, Repr

/-- The `metadata` sub-dictionary of a manifest entry (lines 403-424). -/
structure RepoMetadata where
  description : String
  homepage : String
  language : Option String
  languages : List (String × Nat)
  topics : List String
  stars_count : Nat
  forks_count : Nat
  watchers_count : Nat
  size : Nat
  created_at : String
  updated_at : String
  pushed_at : String
  clone_url : String
  ssh_url : String
  html_url : String
  license : String
  is_fork : Bool
  is_archived : Bool
  is_private : Bool
  default_branch : String
deriving DecidableEq, Repr

/-- The `owner` sub-dictionary of a manifest entry. -/
structure OwnerInfo where
  login : String
  type_ : String
  html_url : String
deriving DecidableEq, Repr

/-- One entry of `manifest['repositories']`. -/
structure ManifestEntry where
  original_name : String
  full_name : String
  unique_id : String
  backup_status : BackupStatus
  zip_filename : Option String
  metadata : RepoMetadata
  owner : OwnerInfo
  contributors : List String
  backed_up_at : String
deriving DecidableEq, Repr

/-- The `backup_info` optional argument of `add_to_manifest`
(`{'is_update': ...}`); the source accepts it but never stores it. -/
structure BackupRefInfo where
  is_update : Bool
deriving DecidableEq, Repr

/-- `manifest['backup_info']`. -/
structure BackupInfo where
  created_at : String
  github_username : Option String
  total_repos : Nat
  backup_id : String
deriving DecidableEq, Repr

/-- `manifest['starred_lists']` after `get_starred_lists()` ran. -/
structure StarredLists where
  uncategorized : List String
  by_language : List (Option String × List String)
  by_topic : List (String × List String)
deriving DecidableEq, Repr

/-- The in-process manifest aggregate.  The dictionaries are modelled as
insertion-ordered association lists. -/
structure Manifest where
  backup_info : BackupInfo
  starred_lists : StarredLists
  repositories : List (String × ManifestEntry)
  lookup : List (String × String)
deriving DecidableEq, Repr

/-- Python `dict` assignment `d[k] = v`: overwrite in place if the key exists
(keeping its position), append otherwise. -/
def dictInsert {α : Type} (k : String) (v : α) :
    List (String × α) → List (String × α)
  | [] => [(k, v)]
  | (k₁, v₁) :: rest =>
    if k₁ = k then (k₁, v) :: rest else (k₁, v₁) :: dictInsert k v rest

/-- Python `d.setdefault(k, []).append(v)` on a dict of lists. -/
def bucketAppend {κ : Type} [DecidableEq κ] (k : κ) (v : String) :
    List (κ × List String) → List (κ × List String)
  | [] => [(k, [v])]
  | (k₁, vs) :: rest =>
    if k₁ = k then (k₁, vs ++ [v]) :: rest else (k₁, vs) :: bucketAppend k v rest

/-- The manifest entry built at the top of `add_to_manifest`. -/
def mkManifestEntry (repo : RepoDescriptor) (repo_id : String)
    (status : BackupStatus) (zip_filename : Option String) (now : String) :
    ManifestEntry :=
  { original_name := repo.name
    full_name := repo.full_name
    unique_id := repo_id
    backup_status := status
    zip_filename := zip_filename
    metadata :=
      { description := repo.description
        homepage := repo.homepage
        language := repo.language
        languages := repo.languages
        topics := repo.topics
        stars_count := repo.stargazers_count
        forks_count := repo.forks_count
        watchers_count := repo.watchers_count
        size := repo.size
        created_at := repo.created_at
        updated_at := repo.updated_at
        pushed_at := repo.pushed_at
        clone_url := repo.clone_url
        ssh_url := repo.ssh_url
        html_url := repo.html_url
        license := (repo.license_name).getD ""
        is_fork := repo.fork
        is_archived := repo.archived
        is_private := repo.is_private
        default_branch := repo.default_branch }
    owner :=
      { login := repo.owner_login
        type_ := repo.owner_type
        html_url := repo.owner_html_url }
    contributors := repo.contributors
    backed_up_at := now }

/-- `add_to_manifest`: store the entry under `repo_id`, update the two lookup
keys, append the id to the language and topic buckets, and bump
`total_repos` by one.  The `backup_info` argument is accepted but (as in the
source) never stored in the entry. -/
def add_to_manifest (repo : RepoDescriptor) (repo_id : String)
    (status : BackupStatus) (zip_filename : Option String)
    (_backup_info : Option BackupRefInfo) (now : String) (m : Manifest) :
    Manifest :=
  let entry := mkManifestEntry repo repo_id status zip_filename now
  let repositories := dictInsert repo_id entry m.repositories
  let lookup := dictInsert repo.full_name repo_id (dictInsert repo.name repo_id m.lookup)
  -- `language = repo.get('language', 'Unknown')`: the key is always present
  -- in the API payload, so this is the payload value (`none` for JSON null).
  let language := repo.language
  let by_language := bucketAppend language repo_id m.starred_lists.by_language
  let by_topic := repo.topics.foldl (fun bt topic => bucketAppend topic repo_id bt)
    m.starred_lists.by_topic
  { backup_info := { m.backup_info with total_repos := m.backup_info.total_repos + 1 }
    starred_lists := { m.starred_lists with by_language := by_language, by_topic := by_topic }
    repositories := repositories
    lookup := lookup }

/-- Initial `starred_lists` as produced by `get_starred_lists()`. -/
def get_starred_lists : StarredLists :=
  { uncategorized := [], by_language := [], by_topic := [] }

/-- The `GH_USER_ID` / `GH_USERNAME` configuration (`None` models an unset
environment variable). -/
structure GitHubConfig where
  github_user_id : Option String
  github_username : Option String
deriving DecidableEq, Repr

/-- The manifest as built in `__init__`: `github_username` is the *configured*
username, `total_repos` is `0`, and the dictionaries are empty.  (`__init__`
sets `starred_lists` to `{}`; `run_backup` replaces it with
`get_starred_lists()` before any entry is added, so the empty record is an
equivalent model.) -/
def init_manifest (c : GitHubConfig) (created_at backup_ts : String) : Manifest :=
  { backup_info :=
      { created_at := created_at
        github_username := c.github_username
        total_repos := 0
        backup_id := generate_backup_id backup_ts }
    starred_lists := { uncategorized := [], by_language := [], by_topic := [] }
    repositories := []
    lookup := [] }

/-- The fields of the GitHub account payload that `get_user_info` uses. -/
structure UserInfo where
  login : String
  id : String
deriving DecidableEq, Repr

/-- What `get_user_info` leaves behind: the returned payload (`none` models
the empty dict `{}` returned on failure) and the two instance attributes it
may update (`self.resolved_username`, `self.github_user_id`). -/
structure UserInfoResult where
  user_info : Option UserInfo
  resolved_username : Option String
  github_user_id : Option String
deriving DecidableEq, Repr

/-- `get_user_info`: id-first lookup with fallback to the username; on a
username hit the numeric id is cached back into `github_user_id`.  `byId` and
`byName` are the account-lookup endpoints (`none` = request error). -/
def get_user_info (byId byName : String → Option UserInfo) (c : GitHubConfig) :
    UserInfoResult :=
  let fallback : UserInfoResult :=
    match c.github_username with
    | some username =>
      match byName username with
      | some u =>
        { user_info := some u, resolved_username := some u.login
          github_user_id := some u.id }
      | none =>
        { user_info := none, resolved_username := none
          github_user_id := c.github_user_id }
    | none =>
      { user_info := none, resolved_username := none
        github_user_id := c.github_user_id }
  match c.github_user_id with
  | some uid =>
    match byId uid with
    | some u =>
      { user_info := some u, resolved_username := some u.login
        github_user_id := c.github_user_id }
    | none => fallback
  | none => fallback

/-- Per-repository enrichment endpoints (`none` models a request error or a
non-200 status, which the code degrades to an empty value). -/
structure EnrichOracles where
  contributors : String → Option (List String)
  languages : String → Option (List (String × Nat))
  topics : String → Option (List String)

/-- `enhance_repo_metadata`: top-10 contributors, language byte counts and
topic names, each degrading to empty on failure. -/
def enhance_repo_metadata (e : EnrichOracles) (repo : RepoDescriptor) :
    RepoDescriptor :=
  { repo with
    contributors :=
      match e.contributors repo.full_name with
      | some cs => cs.take 10
      | none => []
    languages := (e.languages repo.full_name).getD []
    topics := (e.topics repo.full_name).getD [] }

/-- One page of the paginated starred listing: either the page's payload
(an empty payload ends the listing) or a request error. -/
inductive PageOutcome where
  | success (repos : List RepoDescriptor)
  | failure

/-- The `while True` pagination loop of `get_starred_repos`: stop on an empty
page, stop (keeping what was accumulated) on a request error, otherwise
enrich every repository of the page and continue.  An exhausted oracle list
models the service returning an empty page. -/
def fetch_starred_pages (e : EnrichOracles) :
    List PageOutcome → List RepoDescriptor → List RepoDescriptor
  | [], acc => acc
  | PageOutcome.success [] :: _, acc => acc
  | PageOutcome.success (r :: rs) :: rest, acc =>
    fetch_starred_pages e rest (acc ++ ((r :: rs).map (enhance_repo_metadata e)))
  | PageOutcome.failure :: _, acc => acc

/-- `get_starred_repos`: resolve the account first (a resolution failure
yields the empty list), then run the pagination loop.  Returns the repository
list together with the resolved username and (possibly updated) user id. -/
def get_starred_repos (byId byName : String → Option UserInfo)
    (c : GitHubConfig) (e : EnrichOracles) (pages : List PageOutcome) :
    List RepoDescriptor × Option String × Option String :=
  let r := get_user_info byId byName c
  match r.user_info with
  | none => ([], r.resolved_username, r.github_user_id)
  | some _ => (fetch_starred_pages e pages [], r.resolved_username, r.github_user_id)

/-- Result of one `backup_repository` call: the returned boolean, the bucket
and manifest afterwards, the local temporary paths still alive, and the calls
issued (in order). -/
structure StepResult where
  success : Bool
  bucket : Bucket
  manifest : Manifest
  tempFiles : List String
  ops : List Op
deriving Repr

/-- The stale-backup deletion loop of `backup_repository` (lines 370-376):
one `delete_object` call per matched candidate, each failure logged and
skipped (the loop continues). -/
def delete_stale_backups (ox : Oracles) (all : List BackupCandidate)
    (bucket : Bucket) (ops : List Op) : Bucket × List Op :=
  all.foldl
    (fun acc old =>
      ((if ox.deleteOk old.filename then
          acc.1.filter fun o => o.key != old.filename
        else acc.1),
       acc.2 ++ [Op.deleteObject old.filename]))
    (bucket, ops)

/-- `backup_repository`: match existing backups, clone, zip, delete stale
objects, upload, record the outcome, clean up.  The temporary snapshot
directory is modelled by the path `repo.name` and the archive by
`{repo_id}.zip`; a failing clone or zip is modelled as creating nothing.
A failing `shutil.rmtree` raises, so the subsequent `unlink` is skipped —
both are inside one `try` whose `except` only logs. -/
def backup_repository (ox : Oracles) (md5hex : String → String)
    (today now : String) (repo : RepoDescriptor) (bucket : Bucket)
    (m : Manifest) (tempFiles : List String) : StepResult :=
  let repo_name := repo.name
  let repo_full_name := repo.full_name
  let clone_url := repo.clone_url
  let repo_id := generate_repo_id md5hex today repo_full_name clone_url
  let existing_check := check_existing_backup bucket repo_full_name
  -- the `skip_existing` branch only logs; no state is touched
  let ops := [Op.listObjects, Op.cloneCall clone_url]
  if ox.cloneOk clone_url = false then
    { success := false, bucket := bucket
      manifest := add_to_manifest repo repo_id .failed_clone none none now m
      tempFiles := tempFiles, ops := ops }
  else
    let repo_path := repo_name
    let tempFiles := tempFiles ++ [repo_path]
    let ops := ops ++ [Op.zipCall repo_id]
    if ox.zipOk repo_id = false then
      { success := false, bucket := bucket
        manifest := add_to_manifest repo repo_id .failed_zip none none now m
        tempFiles := tempFiles, ops := ops }
    else
      let zip_name := repo_id ++ ".zip"
      let tempFiles := tempFiles ++ [zip_name]
      let bo :=
        if existing_check.existsB then
          delete_stale_backups ox existing_check.allList bucket ops
        else (bucket, ops)
      let bucket := bo.1
      let ops := bo.2 ++ [Op.uploadObject zip_name]
      let success := ox.uploadOk zip_name
      let bucket :=
        if success then bucket ++ [⟨zip_name, ox.newLastModified, ox.newSize⟩]
        else bucket
      let status := if success then BackupStatus.success else BackupStatus.failed_upload
      let backup_info : Option BackupRefInfo := some ⟨existing_check.existsB⟩
      let m := add_to_manifest repo repo_id status (some zip_name) backup_info now m
      let tfops :=
        if ox.rmTreeOk repo_path then
          let tf := tempFiles.erase repo_path
          if ox.unlinkOk zip_name then
            (tf.erase zip_name, ops ++ [Op.rmTree repo_path, Op.unlink zip_name])
          else (tf, ops ++ [Op.rmTree repo_path, Op.unlink zip_name])
        else (tempFiles, ops ++ [Op.rmTree repo_path])
      { success := success, bucket := bucket, manifest := m
        tempFiles := tfops.1, ops := tfops.2 }

/-- Result of `save_manifest`. -/
structure SaveResult where
  manifest_path : Option String
  bucket : Bucket
  tempFiles : List String
  ops : List Op
deriving Repr

/-- One iteration of the old-manifest deletion loop of `save_manifest`
(lines 457-465): skip once stopped, delete a matching `manifest_backup_*.json`
object (recording the call; a failing delete keeps the object and stops the
loop, since the whole loop sits inside a single `try` whose `except` only
logs), ignore other keys. -/
def delete_old_manifests_step (ox : Oracles) (acc : Bucket × List Op × Bool)
    (obj : R2Object) : Bucket × List Op × Bool :=
  if acc.2.2 then acc
  else if strStartsWith obj.key "manifest_backup_" && strEndsWith obj.key ".json" then
    ((if ox.deleteOk obj.key then acc.1.filter fun o => o.key != obj.key
      else acc.1),
     acc.2.1 ++ [Op.deleteObject obj.key],
     !ox.deleteOk obj.key)
  else acc

/-- The old-manifest deletion loop of `save_manifest`. -/
def delete_old_manifests (ox : Oracles) (listing : Bucket) (bucket : Bucket)
    (ops : List Op) : Bucket × List Op :=
  let final := listing.foldl (delete_old_manifests_step ox) (bucket, ops, false)
  (final.1, final.2.1)

/-- `save_manifest`: delete the manifest objects of prior runs *first* (keys
`manifest_backup_*.json`), then write `manifest_{backup_id}.json` locally and
upload it.  A local-save error returns `None`; an upload error is logged and
the local path is still returned. -/
def save_manifest (ox : Oracles) (m : Manifest) (bucket : Bucket)
    (tempFiles : List String) : SaveResult :=
  let listing := bucket
  let ops := [Op.listObjects]
  let (bucket, ops) := delete_old_manifests ox listing bucket ops
  let backup_id := m.backup_info.backup_id
  let manifest_filename := "manifest_" ++ backup_id ++ ".json"
  if ox.manifestSaveOk = false then
    { manifest_path := none, bucket := bucket, tempFiles := tempFiles, ops := ops }
  else
    let tempFiles := tempFiles ++ [manifest_filename]
    let ops := ops ++ [Op.uploadObject manifest_filename]
    let bucket :=
      if ox.manifestUploadOk then
        bucket ++ [⟨manifest_filename, ox.newLastModified, ox.newSize⟩]
      else bucket
    { manifest_path := some manifest_filename, bucket := bucket
      tempFiles := tempFiles, ops := ops }

/-- Python truthiness of the `Optional[int]` limit in `if max_repos:`:
`None` and `0` are falsy. -/
def truthyNat : Option Nat → Bool
  | none => false
  | some n => n != 0

/-- The per-repository `for` loop of `run_backup`, threading bucket,
manifest, live temporary files, the operation trace, the success counter and
the failed-name list.  In dry-run mode each repository is recorded with
status `dry_run` using the id computed at the top of the loop body — which
the source derives from `repo['name']` — and the pipeline is skipped. -/
def process_repos (ox : Oracles) (md5hex : String → String)
    (today now : String) (dry_run : Bool) :
    List RepoDescriptor →
    Bucket × Manifest × List String × List Op × Nat × List String →
    Bucket × Manifest × List String × List Op × Nat × List String
  | [], st => st
  | repo :: rest, (b, m, tf, ops, sc, fr) =>
    -- `repo_id = self.generate_repo_id(repo_name, repo['clone_url'])`
    let repo_id := generate_repo_id md5hex today repo.name repo.clone_url
    if dry_run then
      process_repos ox md5hex today now dry_run rest
        (b, add_to_manifest repo repo_id .dry_run none none now m, tf, ops, sc, fr)
    else
      let r := backup_repository ox md5hex today now repo b m tf
      process_repos ox md5hex today now dry_run rest
        (r.bucket, r.manifest, r.tempFiles, ops ++ r.ops,
         (if r.success then sc + 1 else sc),
         (if r.success then fr else fr ++ [repo.name]))

/-- The outcome of one `run_backup` call. -/
structure RunResult where
  manifest : Manifest
  bucket : Bucket
  tempFiles : List String
  ops : List Op
  success_count : Nat
  failed_repos : List String
  resolved_username : Option String
deriving Repr

/-- `run_backup`: fetch the starred list (returning early, with nothing
persisted, when it is empty), apply the `max_repos` truncation, reset
`starred_lists`, process every repository, and — in real mode only — save and
upload the manifest.  `tempFiles` is the state inside the run's temporary
directory just before the `with` block tears it down. -/
def run_backup (ox : Oracles) (md5hex : String → String)
    (byId byName : String → Option UserInfo) (e : EnrichOracles)
    (pages : List PageOutcome) (c : GitHubConfig)
    (today now created_at backup_ts : String) (bucket : Bucket)
    (dry_run : Bool) (max_repos : Option Nat) : RunResult :=
  let m0 := init_manifest c created_at backup_ts
  let gs := get_starred_repos byId byName c e pages
  let starred_repos := gs.1
  let resolved := gs.2.1
  if starred_repos.isEmpty then
    -- "No starred repositories found" warning; nothing is processed
    { manifest := m0, bucket := bucket, tempFiles := [], ops := []
      success_count := 0, failed_repos := [], resolved_username := resolved }
  else
    let starred_repos :=
      if truthyNat max_repos then starred_repos.take (max_repos.getD 0)
      else starred_repos
    let m0 := { m0 with starred_lists := get_starred_lists }
    let pr :=
      process_repos ox md5hex today now dry_run starred_repos
        (bucket, m0, [], [], 0, [])
    if dry_run then
      { manifest := pr.2.1, bucket := pr.1, tempFiles := pr.2.2.1
        ops := pr.2.2.2.1, success_count := pr.2.2.2.2.1
        failed_repos := pr.2.2.2.2.2, resolved_username := resolved }
    else
      let sr := save_manifest ox pr.2.1 pr.1 pr.2.2.1
      { manifest := pr.2.1, bucket := sr.bucket, tempFiles := sr.tempFiles
        ops := pr.2.2.2.1 ++ sr.ops, success_count := pr.2.2.2.2.1
        failed_repos := pr.2.2.2.2.2, resolved_username := resolved }

/-- The id under which a processed repository is recorded in the manifest:
in dry-run mode `run_backup` passes `repo['name']` to `generate_repo_id`
(line 527), while in real mode `backup_repository` recomputes the id from
`repo['full_name']` (line 341) and records under that. -/
def recorded_repo_id (md5hex : String → String) (today : String)
    (dry_run : Bool) (r : RepoDescriptor) : String :=
  if dry_run then generate_repo_id md5hex today r.name r.clone_url
  else generate_repo_id md5hex today r.full_name r.clone_url

/-- The repository list a run actually iterates over: the fetched starred
list, empty-checked and truncated exactly as in `run_backup`. -/
def attempted_repos (byId byName : String → Option UserInfo)
    (c : GitHubConfig) (e : EnrichOracles) (pages : List PageOutcome)
    (max_repos : Option Nat) : List RepoDescriptor :=
  let starred_repos := (get_starred_repos byId byName c e pages).1
  if starred_repos.isEmpty then []
  else if truthyNat max_repos then starred_repos.take (max_repos.getD 0)
  else starred_repos

/-! ### Concrete fixtures used by witnesses and counterexamples -/

/-- A starred repository `owner/repo`. -/
def repoC : RepoDescriptor :=
  { name := "repo", full_name := "owner/repo"
    clone_url := "https://host/owner/repo.git"
    description := "", homepage := "", language := some "Python", languages := []
    topics := ["tools"], stargazers_count := 1, forks_count := 0
    watchers_count := 0, size := 0, created_at := "", updated_at := ""
    pushed_at := "", ssh_url := "", html_url := "", license_name := none
    fork := false, archived := false, is_private := false
    default_branch := "main", owner_login := "owner", owner_type := "User"
    owner_html_url := "", contributors := [] }

/-- A second starred repository `owner2/other`. -/
def repoC2 : RepoDescriptor :=
  { repoC with
    name := "other"
    full_name := "owner2/other"
    clone_url := "https://host/owner2/other.git"
    owner_login := "owner2" }

/-- A third starred repository `owner3/third`. -/
def repoC3 : RepoDescriptor :=
  { repoC with
    name := "third"
    full_name := "owner3/third"
    clone_url := "https://host/owner3/third.git"
    owner_login := "owner3" }

/-- Oracles under which every external call succeeds. -/
def oxC : Oracles :=
  { cloneOk := fun _ => true, zipOk := fun _ => true, uploadOk := fun _ => true
    deleteOk := fun _ => true, rmTreeOk := fun _ => true
    unlinkOk := fun _ => true, manifestSaveOk := true
    manifestUploadOk := true, newLastModified := 500, newSize := 7 }

/-- Oracles under which the packaging (`zip`) step fails. -/
def oxZipFailC : Oracles := { oxC with zipOk := fun _ => false }

/-- Oracles under which the clone step fails. -/
def oxCloneFailC : Oracles := { oxC with cloneOk := fun _ => false }

/-- A stand-in for `md5(...).hexdigest()` (the embedding only uses that the
digest is a function of the url). -/
def md5C : String → String := fun _ => "0a1b2c3d4e5f6789"

/-- Enrichment endpoints that always answer. -/
def enrichC : EnrichOracles :=
  { contributors := fun _ => some [], languages := fun _ => some []
    topics := fun _ => some ["tools"] }

/-- Account lookup by numeric id: id `123` resolves to login `canonical`. -/
def byIdC : String → Option UserInfo :=
  fun uid => if uid = "123" then some ⟨"canonical", "123"⟩ else none

/-- Account lookup by username: always fails. -/
def byNameC : String → Option UserInfo := fun _ => none

/-- Configuration with both a numeric id and a (different) username. -/
def cC : GitHubConfig :=
  { github_user_id := some "123", github_username := some "configured" }

/-- A bucket holding a current-scheme backup, a legacy backup and a
prior-run manifest object. -/
def bucketC : Bucket :=
  [⟨"20231201_repo.zip", 100, 1⟩,
   ⟨"20240101_abcd1234_owner_repo.zip", 200, 2⟩,
   ⟨"manifest_backup_20230101_000000.json", 50, 3⟩]


/-! ### Dictionary lemmas -/

theorem dictInsert_keys_of_not_mem {α : Type} (k : String) (v : α)
    (l : List (String × α)) (h : k ∉ l.map Prod.fst) :
    (dictInsert k v l).map Prod.fst = l.map Prod.fst ++ [k] := by
  induction l with
  | nil => rfl
  | cons p rest ih =>
    obtain ⟨k₁, v₁⟩ := p
    simp only [List.map_cons, List.mem_cons, not_or] at h
    simp only [dictInsert]
    rw [if_neg fun hk => h.1 hk.symm]
    simp only [List.map_cons, List.cons_append, List.cons.injEq, true_and]
    exact ih h.2

theorem dictInsert_length_of_not_mem {α : Type} (k : String) (v : α)
    (l : List (String × α)) (h : k ∉ l.map Prod.fst) :
    (dictInsert k v l).length = l.length + 1 := by
  have h₁ := congrArg List.length (dictInsert_keys_of_not_mem k v l h)
  simpa using h₁

theorem mem_dictInsert {α : Type} {k : String} {v : α} {p : String × α}
    {l : List (String × α)} (h : p ∈ dictInsert k v l) :
    p = (k, v) ∨ p ∈ l := by
  induction l with
  | nil =>
    simp only [dictInsert, List.mem_singleton] at h
    exact Or.inl h
  | cons q rest ih =>
    obtain ⟨k₁, v₁⟩ := q
    simp only [dictInsert] at h
    by_cases hk : k₁ = k
    · rw [if_pos hk] at h
      rcases List.mem_cons.mp h with h₁ | h₂
      · subst hk
        exact Or.inl h₁
      · exact Or.inr (List.mem_cons_of_mem _ h₂)
    · rw [if_neg hk] at h
      rcases List.mem_cons.mp h with h₁ | h₂
      · exact Or.inr (by simp [h₁])
      · rcases ih h₂ with h₃ | h₃
        · exact Or.inl h₃
        · exact Or.inr (List.mem_cons_of_mem _ h₃)

/-! ### Projection lemmas for the manifest builder -/

theorem add_to_manifest_repositories (repo : RepoDescriptor) (repo_id : String)
    (status : BackupStatus) (z : Option String) (b : Option BackupRefInfo)
    (now : String) (m : Manifest) :
    (add_to_manifest repo repo_id status z b now m).repositories
      = dictInsert repo_id (mkManifestEntry repo repo_id status z now)
          m.repositories := rfl

theorem add_to_manifest_total (repo : RepoDescriptor) (repo_id : String)
    (status : BackupStatus) (z : Option String) (b : Option BackupRefInfo)
    (now : String) (m : Manifest) :
    (add_to_manifest repo repo_id status z b now m).backup_info.total_repos
      = m.backup_info.total_repos + 1 := rfl

theorem add_to_manifest_username (repo : RepoDescriptor) (repo_id : String)
    (status : BackupStatus) (z : Option String) (b : Option BackupRefInfo)
    (now : String) (m : Manifest) :
    (add_to_manifest repo repo_id status z b now m).backup_info.github_username
      = m.backup_info.github_username := rfl

/-! ### Structural lemmas for `backup_repository` -/

theorem backup_repository_repositories (ox : Oracles)
    (md5hex : String → String) (today now : String) (repo : RepoDescriptor)
    (bucket : Bucket) (m : Manifest) (tf : List String) :
    ∃ e, (backup_repository ox md5hex today now repo bucket m tf).manifest.repositories
        = dictInsert (generate_repo_id md5hex today repo.full_name repo.clone_url)
            e m.repositories := by
  unfold backup_repository
  dsimp only
  split
  · exact ⟨_, rfl⟩
  · split
    · exact ⟨_, rfl⟩
    · exact ⟨_, rfl⟩

theorem backup_repository_total (ox : Oracles) (md5hex : String → String)
    (today now : String) (repo : RepoDescriptor) (bucket : Bucket)
    (m : Manifest) (tf : List String) :
    (backup_repository ox md5hex today now repo bucket m tf).manifest.backup_info.total_repos
      = m.backup_info.total_repos + 1 := by
  unfold backup_repository
  dsimp only
  split
  · rfl
  · split
    · rfl
    · rfl

theorem backup_repository_username (ox : Oracles) (md5hex : String → String)
    (today now : String) (repo : RepoDescriptor) (bucket : Bucket)
    (m : Manifest) (tf : List String) :
    (backup_repository ox md5hex today now repo bucket m tf).manifest.backup_info.github_username
      = m.backup_info.github_username := by
  unfold backup_repository
  dsimp only
  split
  · rfl
  · split
    · rfl
    · rfl

/-! ### Structural lemmas for the per-repository loop -/

theorem process_repos_total (ox : Oracles) (md5hex : String → String)
    (today now : String) (dry_run : Bool) :
    ∀ (repos : List RepoDescriptor) (b : Bucket) (m : Manifest)
      (tf : List String) (ops : List Op) (sc : Nat) (fr : List String),
      (process_repos ox md5hex today now dry_run repos
          (b, m, tf, ops, sc, fr)).2.1.backup_info.total_repos
        = m.backup_info.total_repos + repos.length := by
  intro repos
  induction repos with
  | nil => intro b m tf ops sc fr; rfl
  | cons repo rest ih =>
    intro b m tf ops sc fr
    simp only [process_repos]
    split
    · rw [ih, add_to_manifest_total]
      simp only [List.length_cons]
      omega
    · rw [ih, backup_repository_total]
      simp only [List.length_cons]
      omega

theorem process_repos_username (ox : Oracles) (md5hex : String → String)
    (today now : String) (dry_run : Bool) :
    ∀ (repos : List RepoDescriptor) (b : Bucket) (m : Manifest)
      (tf : List String) (ops : List Op) (sc : Nat) (fr : List String),
      (process_repos ox md5hex today now dry_run repos
          (b, m, tf, ops, sc, fr)).2.1.backup_info.github_username
        = m.backup_info.github_username := by
  intro repos
  induction repos with
  | nil => intro b m tf ops sc fr; rfl
  | cons repo rest ih =>
    intro b m tf ops sc fr
    simp only [process_repos]
    split
    · rw [ih, add_to_manifest_username]
    · rw [ih, backup_repository_username]

theorem process_repos_keys (ox : Oracles) (md5hex : String → String)
    (today now : String) (dry_run : Bool) :
    ∀ (repos : List RepoDescriptor) (b : Bucket) (m : Manifest)
      (tf : List String) (ops : List Op) (sc : Nat) (fr : List String),
      (repos.map (recorded_repo_id md5hex today dry_run)).Nodup →
      (∀ r ∈ repos, recorded_repo_id md5hex today dry_run r
          ∉ m.repositories.map Prod.fst) →
      (process_repos ox md5hex today now dry_run repos
          (b, m, tf, ops, sc, fr)).2.1.repositories.map Prod.fst
        = m.repositories.map Prod.fst
            ++ repos.map (recorded_repo_id md5hex today dry_run) := by
  intro repos
  induction repos with
  | nil => intro b m tf ops sc fr _ _; simp [process_repos]
  | cons repo rest ih =>
    intro b m tf ops sc fr hnd hfresh
    simp only [List.map_cons, List.nodup_cons] at hnd
    have hid : recorded_repo_id md5hex today dry_run repo
        ∉ m.repositories.map Prod.fst :=
      hfresh repo (List.mem_cons_self _ _)
    simp only [process_repos]
    split
    · rename_i hdry
      -- dry-run branch: add_to_manifest under the name-derived id
      have hkeys : (add_to_manifest repo
            (generate_repo_id md5hex today repo.name repo.clone_url)
            BackupStatus.dry_run none none now m).repositories.map Prod.fst
          = m.repositories.map Prod.fst
              ++ [recorded_repo_id md5hex today dry_run repo] := by
        rw [add_to_manifest_repositories]
        rw [show recorded_repo_id md5hex today dry_run repo
            = generate_repo_id md5hex today repo.name repo.clone_url by
          simp [recorded_repo_id, hdry]]
        exact dictInsert_keys_of_not_mem _ _ _ (by
          rw [show generate_repo_id md5hex today repo.name repo.clone_url
              = recorded_repo_id md5hex today dry_run repo by
            simp [recorded_repo_id, hdry]]
          exact hid)
      rw [ih _ _ _ _ _ _ hnd.2 ?fresh, hkeys, List.append_assoc,
        List.singleton_append, List.map_cons]
      case fresh =>
        intro r hr
        rw [hkeys]
        simp only [List.mem_append, List.mem_singleton, not_or]
        refine ⟨hfresh r (List.mem_cons_of_mem _ hr), ?_⟩
        intro heq
        exact hnd.1 (heq ▸ List.mem_map_of_mem _ hr)
    · rename_i hdry
      have hdry' : dry_run = false := by
        cases h : dry_run
        · rfl
        · exact absurd rfl (h ▸ hdry)
      obtain ⟨e, he⟩ := backup_repository_repositories ox md5hex today now repo b m tf
      have hkeys : (backup_repository ox md5hex today now repo b m tf).manifest.repositories.map Prod.fst
          = m.repositories.map Prod.fst
              ++ [recorded_repo_id md5hex today dry_run repo] := by
        rw [he]
        rw [show recorded_repo_id md5hex today dry_run repo
            = generate_repo_id md5hex today repo.full_name repo.clone_url by
          simp [recorded_repo_id, hdry']]
        exact dictInsert_keys_of_not_mem _ _ _ (by
          rw [show generate_repo_id md5hex today repo.full_name repo.clone_url
              = recorded_repo_id md5hex today dry_run repo by
            simp [recorded_repo_id, hdry']]
          exact hid)
      rw [ih _ _ _ _ _ _ hnd.2 ?fresh2, hkeys, List.append_assoc,
        List.singleton_append, List.map_cons]
      case fresh2 =>
        intro r hr
        rw [hkeys]
        simp only [List.mem_append, List.mem_singleton, not_or]
        refine ⟨hfresh r (List.mem_cons_of_mem _ hr), ?_⟩
        intro heq
        exact hnd.1 (heq ▸ List.mem_map_of_mem _ hr)

theorem process_repos_dry_state (ox : Oracles) (md5hex : String → String)
    (today now : String) :
    ∀ (repos : List RepoDescriptor) (b : Bucket) (m : Manifest)
      (tf : List String) (ops : List Op) (sc : Nat) (fr : List String),
      (process_repos ox md5hex today now true repos (b, m, tf, ops, sc, fr)).1 = b ∧
      (process_repos ox md5hex today now true repos (b, m, tf, ops, sc, fr)).2.2.1 = tf ∧
      (process_repos ox md5hex today now true repos (b, m, tf, ops, sc, fr)).2.2.2.1 = ops ∧
      (process_repos ox md5hex today now true repos (b, m, tf, ops, sc, fr)).2.2.2.2.1 = sc ∧
      (process_repos ox md5hex today now true repos (b, m, tf, ops, sc, fr)).2.2.2.2.2 = fr := by
  intro repos
  induction repos with
  | nil => intro b m tf ops sc fr; exact ⟨rfl, rfl, rfl, rfl, rfl⟩
  | cons repo rest ih =>
    intro b m tf ops sc fr
    simp only [process_repos, if_pos rfl]
    exact ih b _ tf ops sc fr

theorem process_repos_dry_statuses (ox : Oracles) (md5hex : String → String)
    (today now : String) :
    ∀ (repos : List RepoDescriptor) (b : Bucket) (m : Manifest)
      (tf : List String) (ops : List Op) (sc : Nat) (fr : List String),
      (∀ p ∈ m.repositories, (Prod.snd p).backup_status = BackupStatus.dry_run) →
      ∀ p ∈ (process_repos ox md5hex today now true repos
          (b, m, tf, ops, sc, fr)).2.1.repositories,
        (Prod.snd p).backup_status = BackupStatus.dry_run := by
  intro repos
  induction repos with
  | nil => intro b m tf ops sc fr h; exact h
  | cons repo rest ih =>
    intro b m tf ops sc fr h
    simp only [process_repos, if_pos rfl]
    refine ih b _ tf ops sc fr ?_
    intro p hp
    rw [add_to_manifest_repositories] at hp
    rcases mem_dictInsert hp with h₁ | h₂
    · rw [h₁]
      rfl
    · exact h p h₂

/-! ### Failure-path shape of `backup_repository` -/

theorem backup_repository_clone_fail (ox : Oracles) (md5hex : String → String)
    (today now : String) (repo : RepoDescriptor) (bucket : Bucket)
    (m : Manifest) (tf : List String)
    (h : ox.cloneOk repo.clone_url = false) :
    (backup_repository ox md5hex today now repo bucket m tf).bucket = bucket ∧
    (backup_repository ox md5hex today now repo bucket m tf).ops
      = [Op.listObjects, Op.cloneCall repo.clone_url] ∧
    (backup_repository ox md5hex today now repo bucket m tf).tempFiles = tf := by
  unfold backup_repository
  dsimp only
  rw [if_pos h]
  exact ⟨rfl, rfl, rfl⟩

theorem backup_repository_zip_fail (ox : Oracles) (md5hex : String → String)
    (today now : String) (repo : RepoDescriptor) (bucket : Bucket)
    (m : Manifest) (tf : List String)
    (h₁ : ox.cloneOk repo.clone_url = true)
    (h₂ : ox.zipOk (generate_repo_id md5hex today repo.full_name repo.clone_url)
        = false) :
    (backup_repository ox md5hex today now repo bucket m tf).bucket = bucket ∧
    (backup_repository ox md5hex today now repo bucket m tf).ops
      = [Op.listObjects, Op.cloneCall repo.clone_url,
         Op.zipCall (generate_repo_id md5hex today repo.full_name repo.clone_url)] ∧
    (backup_repository ox md5hex today now repo bucket m tf).tempFiles
      = tf ++ [repo.name] := by
  unfold backup_repository
  dsimp only
  rw [if_neg (by simp [h₁]), if_pos h₂]
  exact ⟨rfl, rfl, rfl⟩

theorem backup_repository_cleanup (ox : Oracles) (md5hex : String → String)
    (today now : String) (repo : RepoDescriptor) (bucket : Bucket)
    (m : Manifest) (tf : List String)
    (h₁ : ox.cloneOk repo.clone_url = true)
    (h₂ : ox.zipOk (generate_repo_id md5hex today repo.full_name repo.clone_url)
        = true)
    (h₃ : ox.rmTreeOk repo.name = true)
    (h₄ : ox.unlinkOk (generate_repo_id md5hex today repo.full_name repo.clone_url
        ++ ".zip") = true)
    (h₅ : repo.name ∉ tf)
    (h₆ : (generate_repo_id md5hex today repo.full_name repo.clone_url ++ ".zip")
        ∉ tf) :
    (backup_repository ox md5hex today now repo bucket m tf).tempFiles = tf ∧
    Op.rmTree repo.name
        ∈ (backup_repository ox md5hex today now repo bucket m tf).ops ∧
    Op.unlink (generate_repo_id md5hex today repo.full_name repo.clone_url
        ++ ".zip")
        ∈ (backup_repository ox md5hex today now repo bucket m tf).ops := by
  unfold backup_repository
  dsimp only
  rw [if_neg (by simp [h₁]), if_neg (by simp [h₂]), if_pos h₃, if_pos h₄]
  dsimp only
  refine ⟨?_, ?_, ?_⟩
  · rw [List.append_assoc, List.erase_append_right _ h₅, List.singleton_append,
      List.erase_cons_head, List.erase_append_right _ h₆, List.erase_cons_head,
      List.append_nil]
  · simp
  · simp

theorem backup_repository_cleanup_nonfatal (ox : Oracles)
    (md5hex : String → String) (today now : String) (repo : RepoDescriptor)
    (bucket : Bucket) (m : Manifest) (tf : List String)
    (h₁ : ox.cloneOk repo.clone_url = true)
    (h₂ : ox.zipOk (generate_repo_id md5hex today repo.full_name repo.clone_url)
        = true) :
    (backup_repository ox md5hex today now repo bucket m tf).success
      = ox.uploadOk (generate_repo_id md5hex today repo.full_name repo.clone_url
          ++ ".zip") := by
  unfold backup_repository
  dsimp only
  rw [if_neg (by simp [h₁]), if_neg (by simp [h₂])]

theorem delete_stale_backups_ops (ox : Oracles) :
    ∀ (all : List BackupCandidate) (bucket : Bucket) (ops : List Op) (op : Op),
      op ∈ (delete_stale_backups ox all bucket ops).2 →
      op ∈ ops ∨ ∃ k, op = Op.deleteObject k := by
  intro all
  induction all with
  | nil => intro bucket ops op h; exact Or.inl h
  | cons old rest ih =>
    intro bucket ops op h
    simp only [delete_stale_backups, List.foldl_cons] at h ⊢
    rcases ih _ _ op h with h₁ | h₂
    · rcases List.mem_append.mp h₁ with h₃ | h₄
      · exact Or.inl h₃
      · exact Or.inr ⟨old.filename, List.mem_singleton.mp h₄⟩
    · exact Or.inr h₂

theorem backup_repository_delete_only_after_zip (ox : Oracles)
    (md5hex : String → String) (today now : String) (repo : RepoDescriptor)
    (bucket : Bucket) (m : Manifest) (tf : List String) (k : String)
    (h : Op.deleteObject k
        ∈ (backup_repository ox md5hex today now repo bucket m tf).ops) :
    ox.cloneOk repo.clone_url = true ∧
    ox.zipOk (generate_repo_id md5hex today repo.full_name repo.clone_url)
      = true := by
  cases h₁ : ox.cloneOk repo.clone_url with
  | false =>
    rw [(backup_repository_clone_fail ox md5hex today now repo bucket m tf h₁).2.1] at h
    simp at h
  | true =>
    cases h₂ : ox.zipOk (generate_repo_id md5hex today repo.full_name repo.clone_url) with
    | false =>
      rw [(backup_repository_zip_fail ox md5hex today now repo bucket m tf h₁ h₂).2.1] at h
      simp at h
    | true => exact ⟨rfl, rfl⟩

/-! ### Shape lemmas for `save_manifest` and the matcher -/

theorem delete_old_manifests_fold_ops (ox : Oracles) :
    ∀ (listing : Bucket) (acc : Bucket × List Op × Bool) (op : Op),
      op ∈ (listing.foldl (delete_old_manifests_step ox) acc).2.1 →
      op ∈ acc.2.1 ∨ ∃ k, op = Op.deleteObject k := by
  intro listing
  induction listing with
  | nil => intro acc op h; exact Or.inl h
  | cons obj rest ih =>
    intro acc op h
    rw [List.foldl_cons] at h
    rcases ih _ op h with h₁ | h₂
    · unfold delete_old_manifests_step at h₁
      by_cases hstop : acc.2.2
      · rw [if_pos hstop] at h₁
        exact Or.inl h₁
      · rw [if_neg hstop] at h₁
        by_cases hmatch : strStartsWith obj.key "manifest_backup_" && strEndsWith obj.key ".json"
        · rw [if_pos hmatch] at h₁
          rcases List.mem_append.mp h₁ with h₃ | h₄
          · exact Or.inl h₃
          · exact Or.inr ⟨obj.key, List.mem_singleton.mp h₄⟩
        · rw [if_neg hmatch] at h₁
          exact Or.inl h₁
    · exact Or.inr h₂

theorem delete_old_manifests_ops (ox : Oracles) (listing : Bucket)
    (bucket : Bucket) (ops : List Op) (op : Op)
    (h : op ∈ (delete_old_manifests ox listing bucket ops).2) :
    op ∈ ops ∨ ∃ k, op = Op.deleteObject k :=
  delete_old_manifests_fold_ops ox listing (bucket, ops, false) op h

theorem save_manifest_ops_split (ox : Oracles) (m : Manifest)
    (bucket : Bucket) (tf : List String) :
    (save_manifest ox m bucket tf).ops
      = (delete_old_manifests ox bucket bucket [Op.listObjects]).2
          ++ (if ox.manifestSaveOk then
                [Op.uploadObject ("manifest_" ++ m.backup_info.backup_id ++ ".json")]
              else []) := by
  unfold save_manifest
  dsimp only
  cases h : ox.manifestSaveOk with
  | false => simp [h]
  | true => simp [h]

theorem check_existing_backup_allList (bucket : Bucket)
    (repo_full_name : String) :
    (check_existing_backup bucket repo_full_name).allList
      = List.insertionSort candLE
          ((bucket.filter fun obj => matchesBackupName repo_full_name obj.key).map
            fun obj => BackupCandidate.mk obj.key obj.lastModified obj.size) := by
  unfold check_existing_backup
  dsimp only
  split
  · rename_i heq
    rw [heq]
    rfl
  · rename_i latest rest heq
    rw [heq]
    rfl

/-! ### Run-level helper lemmas -/

theorem run_backup_manifest_eq (ox : Oracles) (md5hex : String → String)
    (byId byName : String → Option UserInfo) (e : EnrichOracles)
    (pages : List PageOutcome) (c : GitHubConfig)
    (today now created_at backup_ts : String) (bucket : Bucket)
    (dry_run : Bool) (max_repos : Option Nat) :
    (run_backup ox md5hex byId byName e pages c today now created_at backup_ts
        bucket dry_run max_repos).manifest
      = if (get_starred_repos byId byName c e pages).1.isEmpty then
          init_manifest c created_at backup_ts
        else
          (process_repos ox md5hex today now dry_run
            (attempted_repos byId byName c e pages max_repos)
            (bucket,
             { init_manifest c created_at backup_ts with
                 starred_lists := get_starred_lists }, [], [], 0, [])).2.1 := by
  unfold run_backup attempted_repos
  dsimp only
  by_cases he : (get_starred_repos byId byName c e pages).1.isEmpty
  · simp only [if_pos he]
  · simp only [if_neg he]
    cases dry_run <;> rfl

theorem run_backup_early_exit (ox : Oracles) (md5hex : String → String)
    (byId byName : String → Option UserInfo) (e : EnrichOracles)
    (pages : List PageOutcome) (c : GitHubConfig)
    (today now created_at backup_ts : String) (bucket : Bucket)
    (dry_run : Bool) (max_repos : Option Nat)
    (h : (get_starred_repos byId byName c e pages).1 = []) :
    run_backup ox md5hex byId byName e pages c today now created_at backup_ts
        bucket dry_run max_repos
      = { manifest := init_manifest c created_at backup_ts, bucket := bucket
          tempFiles := [], ops := [], success_count := 0, failed_repos := []
          resolved_username := (get_starred_repos byId byName c e pages).2.1 } := by
  unfold run_backup
  dsimp only
  rw [if_pos (by rw [h]; rfl)]

/-! ### Claim theorems -/

/-- C1: when the clone step or the packaging step of a repository fails, the
orchestrator issues no delete-object call and the bucket — in particular
every matched stale backup object in it — is unchanged; conversely a
delete-object call can only occur on runs whose clone and zip steps both
succeeded, i.e. only after the archive was created. -/
theorem failed_step_preserves_stale_backups (ox : Oracles)
    (md5hex : String → String) (today now : String) (repo : RepoDescriptor)
    (bucket : Bucket) (m : Manifest) (tf : List String) :
    ((ox.cloneOk repo.clone_url = false ∨
      ox.zipOk (generate_repo_id md5hex today repo.full_name repo.clone_url)
        = false) →
      (backup_repository ox md5hex today now repo bucket m tf).bucket = bucket ∧
      ∀ k, Op.deleteObject k
          ∉ (backup_repository ox md5hex today now repo bucket m tf).ops) ∧
    (∀ k, Op.deleteObject k
        ∈ (backup_repository ox md5hex today now repo bucket m tf).ops →
      ox.cloneOk repo.clone_url = true ∧
      ox.zipOk (generate_repo_id md5hex today repo.full_name repo.clone_url)
        = true) := by
  constructor
  · intro h
    cases h₁ : ox.cloneOk repo.clone_url with
    | false =>
      obtain ⟨hb, hops, _⟩ :=
        backup_repository_clone_fail ox md5hex today now repo bucket m tf h₁
      refine ⟨hb, fun k => ?_⟩
      rw [hops]
      simp
    | true =>
      have h₂ : ox.zipOk
          (generate_repo_id md5hex today repo.full_name repo.clone_url)
            = false := by
        rcases h with h | h
        · rw [h₁] at h
          exact absurd h (by simp)
        · exact h
      obtain ⟨hb, hops, _⟩ :=
        backup_repository_zip_fail ox md5hex today now repo bucket m tf h₁ h₂
      refine ⟨hb, fun k => ?_⟩
      rw [hops]
      simp
  · exact fun k =>
      backup_repository_delete_only_after_zip ox md5hex today now repo bucket
        m tf k

/-- C1 witness: a concrete failed-zip run against a bucket that holds two
matched stale backups leaves the bucket unchanged and issues no delete of the
previously stored current-scheme backup object. -/
theorem failed_step_preserves_stale_backups_witness :
    (backup_repository oxZipFailC md5C "20240101" "NOW" repoC bucketC
        (init_manifest cC "CREATED" "20240101_120000") []).bucket = bucketC ∧
    Op.deleteObject "20240101_abcd1234_owner_repo.zip"
      ∉ (backup_repository oxZipFailC md5C "20240101" "NOW" repoC bucketC
          (init_manifest cC "CREATED" "20240101_120000") []).ops :=
  ⟨((failed_step_preserves_stale_backups oxZipFailC md5C "20240101" "NOW"
      repoC bucketC (init_manifest cC "CREATED" "20240101_120000") []).1
      (Or.inr (by decide))).1,
   ((failed_step_preserves_stale_backups oxZipFailC md5C "20240101" "NOW"
      repoC bucketC (init_manifest cC "CREATED" "20240101_120000") []).1
      (Or.inr (by decide))).2 "20240101_abcd1234_owner_repo.zip"⟩

set_option maxHeartbeats 1000000 in
/-- C2: for every bucket state and repository full name, the matcher returns
exactly the stored objects whose key ends in one of the two scheme suffixes
(the candidate list is a permutation of the suffix-filtered full listing),
sorted by last-modified descending; for `owner/repo` the two suffixes are
`_owner_repo.zip` and `_repo.zip`, and on a bucket holding
`20240101_abcd1234_owner_repo.zip` (newer) and legacy `20231201_repo.zip`
both are returned with the 2024 object ranked first. -/
theorem matcher_suffix_and_ranking (bucket : Bucket)
    (repo_full_name : String) :
    List.Perm ((check_existing_backup bucket repo_full_name).allList)
        ((bucket.filter fun obj => matchesBackupName repo_full_name obj.key).map
          fun obj => BackupCandidate.mk obj.key obj.lastModified obj.size) ∧
    List.Sorted candLE ((check_existing_backup bucket repo_full_name).allList) ∧
    (∀ key, matchesBackupName "owner/repo" key
        = (strEndsWith key "_owner_repo.zip" || strEndsWith key "_repo.zip")) ∧
    check_existing_backup
        [⟨"20231201_repo.zip", 100, 1⟩,
         ⟨"20240101_abcd1234_owner_repo.zip", 200, 2⟩] "owner/repo"
      = .found 2 ⟨"20240101_abcd1234_owner_repo.zip", 200, 2⟩
          [⟨"20240101_abcd1234_owner_repo.zip", 200, 2⟩,
           ⟨"20231201_repo.zip", 100, 1⟩] := by
  refine ⟨?_, ?_, ?_, ?_⟩
  · rw [check_existing_backup_allList]
    exact List.perm_insertionSort candLE _
  · rw [check_existing_backup_allList]
    exact List.sorted_insertionSort candLE _
  · intro key
    have h₁ : replaceSlashes "owner/repo" = "owner_repo" := by decide
    have h₂ : lastPathComponent "owner/repo" = "repo" := by decide
    have h₃ : "_" ++ "owner_repo" ++ ".zip" = "_owner_repo.zip" := by decide
    have h₄ : "_" ++ "repo" ++ ".zip" = "_repo.zip" := by decide
    simp only [matchesBackupName, h₁, h₂, h₃, h₄]
  · decide

set_option maxRecDepth 4000 in
set_option maxHeartbeats 1000000 in
/-- C3 counterexample: on a bucket holding one prior-run manifest object,
`save_manifest` issues the delete of that object strictly before the upload
of the new manifest object — the prior manifest is deleted before the new one
has been uploaded, contradicting the claimed upload-first order. -/
theorem prior_manifest_deleted_before_upload :
    Op.deleteObject "manifest_backup_20230101_000000.json"
        ∈ ((save_manifest oxC (init_manifest cC "CREATED" "20240101_120000")
            [⟨"manifest_backup_20230101_000000.json", 50, 3⟩] []).ops.takeWhile
          fun op => op != Op.uploadObject "manifest_backup_20240101_120000.json") ∧
    Op.uploadObject "manifest_backup_20240101_120000.json"
      ∈ (save_manifest oxC (init_manifest cC "CREATED" "20240101_120000")
          [⟨"manifest_backup_20230101_000000.json", 50, 3⟩] []).ops := by
  decide

/-- C3 (amended): `save_manifest` deletes the manifest objects of prior runs
first and uploads the new manifest object only afterwards: its operation
trace splits into a prefix containing no upload call and a suffix containing
no delete call. -/
theorem manifest_retention_deletes_then_uploads (ox : Oracles) (m : Manifest)
    (bucket : Bucket) (tf : List String) :
    ∃ pre post, (save_manifest ox m bucket tf).ops = pre ++ post ∧
      (∀ op ∈ pre, ∀ k, op ≠ Op.uploadObject k) ∧
      (∀ op ∈ post, ∀ k, op ≠ Op.deleteObject k) := by
  refine ⟨(delete_old_manifests ox bucket bucket [Op.listObjects]).2,
    (if ox.manifestSaveOk then
      [Op.uploadObject ("manifest_" ++ m.backup_info.backup_id ++ ".json")]
     else []),
    save_manifest_ops_split ox m bucket tf, ?_, ?_⟩
  · intro op hop k
    rcases delete_old_manifests_ops ox bucket bucket [Op.listObjects]
        op hop with h₁ | ⟨k₂, hk⟩
    · simp only [List.mem_singleton] at h₁
      rw [h₁]
      intro hcontra
      exact Op.noConfusion hcontra
    · rw [hk]
      intro hcontra
      exact Op.noConfusion hcontra
  · intro op hop k
    by_cases hs : ox.manifestSaveOk
    · rw [if_pos hs] at hop
      simp only [List.mem_singleton] at hop
      rw [hop]
      intro hcontra
      exact Op.noConfusion hcontra
    · rw [if_neg hs] at hop
      exact absurd hop (List.not_mem_nil op)

/-- C4: provided the generated repository ids of the attempted repositories
are pairwise distinct (the code relies on this, via the md5 prefix), every
run records exactly one manifest entry per attempted repository — the
`repositories` mapping has exactly as many entries as repositories were
attempted, in dry-run and real mode alike — the total-repository counter
equals that same count, and `add_to_manifest` increments the counter by
exactly one per recorded outcome. -/
theorem one_entry_per_attempted_repo (ox : Oracles) (md5hex : String → String)
    (byId byName : String → Option UserInfo) (e : EnrichOracles)
    (pages : List PageOutcome) (c : GitHubConfig)
    (today now created_at backup_ts : String) (bucket : Bucket)
    (dry_run : Bool) (max_repos : Option Nat)
    (h : ((attempted_repos byId byName c e pages max_repos).map
        (recorded_repo_id md5hex today dry_run)).Nodup) :
    (run_backup ox md5hex byId byName e pages c today now created_at backup_ts
        bucket dry_run max_repos).manifest.repositories.length
      = (attempted_repos byId byName c e pages max_repos).length ∧
    (run_backup ox md5hex byId byName e pages c today now created_at backup_ts
        bucket dry_run max_repos).manifest.backup_info.total_repos
      = (attempted_repos byId byName c e pages max_repos).length ∧
    (∀ (repo : RepoDescriptor) (repo_id : String) (status : BackupStatus)
        (z : Option String) (b : Option BackupRefInfo) (now₂ : String)
        (m : Manifest),
      (add_to_manifest repo repo_id status z b now₂ m).backup_info.total_repos
        = m.backup_info.total_repos + 1) := by
  simp only [run_backup_manifest_eq]
  by_cases he : (get_starred_repos byId byName c e pages).1.isEmpty
  · have hatt : attempted_repos byId byName c e pages max_repos = [] := by
      unfold attempted_repos
      dsimp only
      rw [if_pos he]
    rw [hatt, if_pos he]
    exact ⟨rfl, rfl, fun _ _ _ _ _ _ _ => rfl⟩
  · rw [if_neg he]
    refine ⟨?_, ?_, fun _ _ _ _ _ _ _ => rfl⟩
    · have h₁ := process_repos_keys ox md5hex today now dry_run
        (attempted_repos byId byName c e pages max_repos) bucket
        { init_manifest c created_at backup_ts with
            starred_lists := get_starred_lists }
        [] [] 0 [] h (fun r hr => List.not_mem_nil _)
      have h₂ := congrArg List.length h₁
      simpa [init_manifest] using h₂
    · have h₃ := process_repos_total ox md5hex today now dry_run
        (attempted_repos byId byName c e pages max_repos) bucket
        { init_manifest c created_at backup_ts with
            starred_lists := get_starred_lists }
        [] [] 0 []
      simpa [init_manifest] using h₃

/-- C4 witness: a concrete real-mode run over two starred repositories
records exactly two manifest entries and a total counter of two. -/
theorem one_entry_per_attempted_repo_witness :
    (((attempted_repos byIdC byNameC cC enrichC
          [PageOutcome.success [repoC, repoC2]] none).map
        (recorded_repo_id md5C "20240101" false)).Nodup) ∧
    (run_backup oxC md5C byIdC byNameC enrichC
        [PageOutcome.success [repoC, repoC2]] cC "20240101" "NOW" "CREATED"
        "20240101_120000" bucketC false none).manifest.repositories.length
      = (attempted_repos byIdC byNameC cC enrichC
          [PageOutcome.success [repoC, repoC2]] none).length :=
  ⟨by decide,
   (one_entry_per_attempted_repo oxC md5C byIdC byNameC enrichC
      [PageOutcome.success [repoC, repoC2]] cC "20240101" "NOW" "CREATED"
      "20240101_120000" bucketC false none (by decide)).1⟩

set_option maxRecDepth 4000 in
set_option maxHeartbeats 1000000 in
/-- C5: evaluation of the code at the failing input.  In a dry run over the
repository `owner/repo` (short name `repo`), the id recorded in the manifest
is built by `run_backup` from `repo['name']` and therefore carries the slug
`repo`, whereas `generate_repo_id` applied to the repository's `fullName` —
the id the claim specifies, and the one a real run records — carries the slug
`owner_repo`; the two differ. -/
theorem dry_run_id_drops_owner :
    ((run_backup oxC md5C byIdC byNameC enrichC [PageOutcome.success [repoC]]
        cC "20240101" "NOW" "CREATED" "20240101_120000" [] true
        none).manifest.repositories.map Prod.fst)
      = ["20240101_0a1b2c3d_repo"] ∧
    generate_repo_id md5C "20240101" repoC.full_name repoC.clone_url
      = "20240101_0a1b2c3d_owner_repo" ∧
    ("20240101_0a1b2c3d_repo" : String) ≠ "20240101_0a1b2c3d_owner_repo" ∧
    ((run_backup oxC md5C byIdC byNameC enrichC [PageOutcome.success [repoC]]
        cC "20240101" "NOW" "CREATED" "20240101_120000" [] false
        none).manifest.repositories.map Prod.fst)
      = ["20240101_0a1b2c3d_owner_repo"] := by
  refine ⟨by decide, by decide, by decide, by decide⟩

/-- C6: a dry run issues no storage or snapshot operation at all (its
operation trace is empty, so in particular there is no clone, upload or
delete call and no manifest object is written), leaves the bucket and the
local temporary directory untouched, records every attempted repository with
status `dry_run`, and — when the generated ids are pairwise distinct —
records exactly one entry per attempted repository. -/
theorem dry_run_records_without_side_effects (ox : Oracles)
    (md5hex : String → String) (byId byName : String → Option UserInfo)
    (e : EnrichOracles) (pages : List PageOutcome) (c : GitHubConfig)
    (today now created_at backup_ts : String) (bucket : Bucket)
    (max_repos : Option Nat)
    (h : ((attempted_repos byId byName c e pages max_repos).map
        (recorded_repo_id md5hex today true)).Nodup) :
    (run_backup ox md5hex byId byName e pages c today now created_at backup_ts
        bucket true max_repos).ops = [] ∧
    (run_backup ox md5hex byId byName e pages c today now created_at backup_ts
        bucket true max_repos).bucket = bucket ∧
    (run_backup ox md5hex byId byName e pages c today now created_at backup_ts
        bucket true max_repos).tempFiles = [] ∧
    (∀ p ∈ (run_backup ox md5hex byId byName e pages c today now created_at
        backup_ts bucket true max_repos).manifest.repositories,
      (Prod.snd p).backup_status = BackupStatus.dry_run) ∧
    (run_backup ox md5hex byId byName e pages c today now created_at backup_ts
        bucket true max_repos).manifest.repositories.length
      = (attempted_repos byId byName c e pages max_repos).length := by
  have hlen := (one_entry_per_attempted_repo ox md5hex byId byName e pages c
    today now created_at backup_ts bucket true max_repos h).1
  unfold run_backup
  dsimp only
  by_cases he : (get_starred_repos byId byName c e pages).1.isEmpty
  · rw [if_pos he]
    refine ⟨rfl, rfl, rfl, fun p hp => absurd hp (List.not_mem_nil p), ?_⟩
    have hatt : attempted_repos byId byName c e pages max_repos = [] := by
      unfold attempted_repos
      dsimp only
      rw [if_pos he]
    rw [hatt]
    rfl
  · rw [if_neg he, if_pos rfl]
    obtain ⟨hb, htf, hops, _, _⟩ := process_repos_dry_state ox md5hex today now
      (if truthyNat max_repos then
        (get_starred_repos byId byName c e pages).1.take (max_repos.getD 0)
       else (get_starred_repos byId byName c e pages).1)
      bucket
      { init_manifest c created_at backup_ts with
          starred_lists := get_starred_lists } [] [] 0 []
    refine ⟨hops, hb, htf, ?_, ?_⟩
    · exact process_repos_dry_statuses ox md5hex today now _ bucket
        { init_manifest c created_at backup_ts with
            starred_lists := get_starred_lists } [] [] 0 []
        (fun p hp => absurd hp (List.not_mem_nil p))
    · have hatt : attempted_repos byId byName c e pages max_repos
          = (if truthyNat max_repos then
              (get_starred_repos byId byName c e pages).1.take (max_repos.getD 0)
             else (get_starred_repos byId byName c e pages).1) := by
        unfold attempted_repos
        dsimp only
        rw [if_neg he]
      rw [← hatt]
      rw [run_backup_manifest_eq, if_neg he, hatt] at hlen
      rw [← hatt] at hlen
      exact hlen

/-- C6 witness: a concrete dry run with `max = 3` over three starred
repositories performs no operation and records three `dry_run` entries. -/
theorem dry_run_records_without_side_effects_witness :
    (((attempted_repos byIdC byNameC cC enrichC
          [PageOutcome.success [repoC, repoC2, repoC3]] (some 3)).map
        (recorded_repo_id md5C "20240101" true)).Nodup) ∧
    (run_backup oxC md5C byIdC byNameC enrichC
        [PageOutcome.success [repoC, repoC2, repoC3]] cC "20240101" "NOW"
        "CREATED" "20240101_120000" bucketC true (some 3)).ops = [] :=
  ⟨by decide,
   (dry_run_records_without_side_effects oxC md5C byIdC byNameC enrichC
      [PageOutcome.success [repoC, repoC2, repoC3]] cC "20240101" "NOW"
      "CREATED" "20240101_120000" bucketC (some 3) (by decide)).1⟩

/-- C7 counterexample: at a concrete configuration, the value `listStarred`
returns for an account with zero starred repositories is the very same empty
list it returns when the first page fetch errors out — the empty result and
the fetch-error result are not distinguishable. -/
theorem zero_starred_equals_fetch_error_result :
    (get_starred_repos byIdC byNameC cC enrichC []).1
      = (get_starred_repos byIdC byNameC cC enrichC [PageOutcome.failure]).1 ∧
    (get_starred_repos byIdC byNameC cC enrichC []).1 = [] := by
  decide

/-- C7 (amended): with zero starred repositories `get_starred_repos` returns
the empty list — the same value it returns on a page-fetch error, so the two
are not distinguishable by the caller — and on an empty result the run exits
cleanly: it processes no repository, issues no storage operation (in
particular uploads no manifest object), and leaves the initial manifest. -/
theorem empty_starred_clean_exit (ox : Oracles) (md5hex : String → String)
    (byId byName : String → Option UserInfo) (e : EnrichOracles)
    (pages : List PageOutcome) (c : GitHubConfig)
    (today now created_at backup_ts : String) (bucket : Bucket)
    (dry_run : Bool) (max_repos : Option Nat)
    (h : (get_starred_repos byId byName c e pages).1 = []) :
    (get_starred_repos byId byName c e []).1 = [] ∧
    (get_starred_repos byId byName c e (PageOutcome.failure :: pages)).1 = [] ∧
    (run_backup ox md5hex byId byName e pages c today now created_at backup_ts
        bucket dry_run max_repos).ops = [] ∧
    (run_backup ox md5hex byId byName e pages c today now created_at backup_ts
        bucket dry_run max_repos).manifest
      = init_manifest c created_at backup_ts ∧
    (run_backup ox md5hex byId byName e pages c today now created_at backup_ts
        bucket dry_run max_repos).success_count = 0 ∧
    (run_backup ox md5hex byId byName e pages c today now created_at backup_ts
        bucket dry_run max_repos).bucket = bucket := by
  have hr := run_backup_early_exit ox md5hex byId byName e pages c today now
    created_at backup_ts bucket dry_run max_repos h
  refine ⟨?_, ?_, ?_, ?_, ?_, ?_⟩
  · unfold get_starred_repos
    dsimp only
    cases hu : (get_user_info byId byName c).user_info with
    | none => rfl
    | some u => rfl
  · unfold get_starred_repos
    dsimp only
    cases hu : (get_user_info byId byName c).user_info with
    | none => rfl
    | some u => rfl
  · rw [hr]
  · rw [hr]
  · rw [hr]
  · rw [hr]

/-- C7 witness: a run against an account that resolves but has zero starred
repositories exits with no operations and no manifest entries. -/
theorem empty_starred_clean_exit_witness :
    ((get_starred_repos byIdC byNameC cC enrichC []).1 = []) ∧
    (run_backup oxC md5C byIdC byNameC enrichC [] cC "20240101" "NOW"
        "CREATED" "20240101_120000" bucketC false none).ops = [] :=
  ⟨by decide,
   (empty_starred_clean_exit oxC md5C byIdC byNameC enrichC [] cC "20240101"
      "NOW" "CREATED" "20240101_120000" bucketC false none
      (by decide)).2.2.1⟩

/-- C8 counterexample: a concrete repository whose packaging step fails exits
the pipeline with the cloned snapshot directory still alive in the temporary
directory — no `rmtree` or `unlink` call is issued on that exit path, so the
local temporary resources are not released before the next repository. -/
theorem failed_zip_leaves_snapshot_dir :
    (backup_repository oxZipFailC md5C "20240101" "NOW" repoC bucketC
        (init_manifest cC "CREATED" "20240101_120000") []).tempFiles
      = ["repo"] ∧
    Op.rmTree "repo"
      ∉ (backup_repository oxZipFailC md5C "20240101" "NOW" repoC bucketC
          (init_manifest cC "CREATED" "20240101_120000") []).ops ∧
    Op.unlink "20240101_0a1b2c3d_owner_repo.zip"
      ∉ (backup_repository oxZipFailC md5C "20240101" "NOW" repoC bucketC
          (init_manifest cC "CREATED" "20240101_120000") []).ops := by
  decide

/-- C8 (amended): cleanup of the snapshot directory and the archive happens
only on the exit paths that reach the upload step (`success` and
`failed_upload`, where both resources are released and the `rmtree`/`unlink`
calls appear in the trace, a cleanup failure being non-fatal to the returned
outcome); on the `failed_zip` path the snapshot directory is not released —
it stays alive until the end-of-run temporary-directory teardown. -/
theorem cleanup_only_after_packaging (ox : Oracles) (md5hex : String → String)
    (today now : String) (repo : RepoDescriptor) (bucket : Bucket)
    (m : Manifest) (tf : List String) :
    (ox.cloneOk repo.clone_url = true →
      ox.zipOk (generate_repo_id md5hex today repo.full_name repo.clone_url)
          = false →
      (backup_repository ox md5hex today now repo bucket m tf).tempFiles
          = tf ++ [repo.name] ∧
      Op.rmTree repo.name
        ∉ (backup_repository ox md5hex today now repo bucket m tf).ops) ∧
    (ox.cloneOk repo.clone_url = true →
      ox.zipOk (generate_repo_id md5hex today repo.full_name repo.clone_url)
          = true →
      ox.rmTreeOk repo.name = true →
      ox.unlinkOk (generate_repo_id md5hex today repo.full_name repo.clone_url
          ++ ".zip") = true →
      repo.name ∉ tf →
      (generate_repo_id md5hex today repo.full_name repo.clone_url ++ ".zip")
          ∉ tf →
      (backup_repository ox md5hex today now repo bucket m tf).tempFiles = tf ∧
      Op.rmTree repo.name
        ∈ (backup_repository ox md5hex today now repo bucket m tf).ops ∧
      Op.unlink (generate_repo_id md5hex today repo.full_name repo.clone_url
          ++ ".zip")
        ∈ (backup_repository ox md5hex today now repo bucket m tf).ops) ∧
    (ox.cloneOk repo.clone_url = true →
      ox.zipOk (generate_repo_id md5hex today repo.full_name repo.clone_url)
          = true →
      (backup_repository ox md5hex today now repo bucket m tf).success
        = ox.uploadOk (generate_repo_id md5hex today repo.full_name
            repo.clone_url ++ ".zip")) := by
  refine ⟨?_, ?_, ?_⟩
  · intro h₁ h₂
    obtain ⟨_, hops, htf⟩ :=
      backup_repository_zip_fail ox md5hex today now repo bucket m tf h₁ h₂
    refine ⟨htf, ?_⟩
    rw [hops]
    simp
  · intro h₁ h₂ h₃ h₄ h₅ h₆
    exact backup_repository_cleanup ox md5hex today now repo bucket m tf
      h₁ h₂ h₃ h₄ h₅ h₆
  · intro h₁ h₂
    exact backup_repository_cleanup_nonfatal ox md5hex today now repo bucket
      m tf h₁ h₂

/-- C8 witness: on a concrete successful run the snapshot directory and the
archive are both released (the temporary-file set returns to empty) and the
cleanup calls appear in the trace. -/
theorem cleanup_only_after_packaging_witness :
    (backup_repository oxC md5C "20240101" "NOW" repoC bucketC
        (init_manifest cC "CREATED" "20240101_120000") []).tempFiles = [] ∧
    Op.rmTree "repo"
      ∈ (backup_repository oxC md5C "20240101" "NOW" repoC bucketC
          (init_manifest cC "CREATED" "20240101_120000") []).ops ∧
    Op.unlink (generate_repo_id md5C "20240101" repoC.full_name
        repoC.clone_url ++ ".zip")
      ∈ (backup_repository oxC md5C "20240101" "NOW" repoC bucketC
          (init_manifest cC "CREATED" "20240101_120000") []).ops :=
  (cleanup_only_after_packaging oxC md5C "20240101" "NOW" repoC bucketC
      (init_manifest cC "CREATED" "20240101_120000") []).2.1
    (by decide) (by decide) (by decide) (by decide) (by decide) (by decide)

/-- C9 counterexample: with `GH_USER_ID = 123` resolving to login
`canonical` and `GH_USERNAME = configured`, the run resolves the canonical
username but the manifest's `backup_info.github_username` still holds the
configured value, which differs from the resolved login. -/
theorem configured_username_recorded_despite_resolution :
    (run_backup oxC md5C byIdC byNameC enrichC [PageOutcome.success [repoC]]
        cC "20240101" "NOW" "CREATED" "20240101_120000" bucketC false
        none).resolved_username = some "canonical" ∧
    (run_backup oxC md5C byIdC byNameC enrichC [PageOutcome.success [repoC]]
        cC "20240101" "NOW" "CREATED" "20240101_120000" bucketC false
        none).manifest.backup_info.github_username = some "configured" ∧
    (some "configured" : Option String) ≠ some "canonical" := by
  decide

/-- C9 (amended): in every run the manifest's `backup_info.github_username`
is the configured `GH_USERNAME` value (possibly absent), fixed at
initialization before identity resolution runs; it is never updated to the
resolved canonical login. -/
theorem manifest_records_configured_username (ox : Oracles)
    (md5hex : String → String) (byId byName : String → Option UserInfo)
    (e : EnrichOracles) (pages : List PageOutcome) (c : GitHubConfig)
    (today now created_at backup_ts : String) (bucket : Bucket)
    (dry_run : Bool) (max_repos : Option Nat) :
    (run_backup ox md5hex byId byName e pages c today now created_at backup_ts
        bucket dry_run max_repos).manifest.backup_info.github_username
      = c.github_username := by
  rw [run_backup_manifest_eq]
  by_cases he : (get_starred_repos byId byName c e pages).1.isEmpty
  · rw [if_pos he]
    rfl
  · rw [if_neg he]
    rw [process_repos_username]
    rfl

/-- C10: passing `0` as the maximum-repository limit applies no truncation:
the run behaves identically to passing no limit at all (the `0` is falsy in
the `if max_repos:` guard), and the attempted-repository list is the full
fetched list rather than the empty one. -/
theorem max_repos_zero_is_no_limit (ox : Oracles) (md5hex : String → String)
    (byId byName : String → Option UserInfo) (e : EnrichOracles)
    (pages : List PageOutcome) (c : GitHubConfig)
    (today now created_at backup_ts : String) (bucket : Bucket)
    (dry_run : Bool) :
    run_backup ox md5hex byId byName e pages c today now created_at backup_ts
        bucket dry_run (some 0)
      = run_backup ox md5hex byId byName e pages c today now created_at
          backup_ts bucket dry_run none ∧
    attempted_repos byId byName c e pages (some 0)
      = attempted_repos byId byName c e pages none := by
  constructor <;> rfl
